import Mathlib

/-!
Shallow embedding of the dynamic viewport/scissor state encoder of
src/icd/intel/state.c (Intel ICD of the Vulkan loader tree), together with
proofs of the specification claims about it.

Modelling conventions:
* hardware generation tiers are carried in tenths, so INTEL_GEN(6) = 60,
  INTEL_GEN(7) = 70 and INTEL_GEN(7.5) = 75; the supported range asserted by
  INTEL_GPU_ASSERT(gpu, 6, 7.5) is 60..75;
* C `float` values are carried as rationals and the bit-reinterpretation
  u_fui is kept abstract as a constructor of the word type, so a word in the
  command buffer records whether it was stored as a raw float bit pattern or
  as an integral word;
* machine integers are Int/Nat with explicit reductions modulo 2^16 and 2^32
  where the C arithmetic wraps;
* the fixed command buffer is a total function from word index to word, and
  the pointer-walking loops of set_viewport_state become structural
  recursion over the input lists with explicit positions.
-/

/-- Viewport descriptor (VkViewport): six float fields, modelled as rationals. -/
structure VkViewport where
  originX : ℚ
  originY : ℚ
  width : ℚ
  height : ℚ
  minDepth : ℚ
  maxDepth : ℚ
  deriving DecidableEq

/-- Integer offset of a scissor rectangle (VkOffset2D, two int32_t fields). -/
structure VkOffset2D where
  x : ℤ
  y : ℤ
  deriving DecidableEq

/-- Extent of a scissor rectangle (VkExtent2D, two uint32_t fields). -/
structure VkExtent2D where
  width : ℕ
  height : ℕ
  deriving DecidableEq

/-- Scissor descriptor (VkRect2D). -/
structure VkRect2D where
  offset : VkOffset2D
  extent : VkExtent2D
  deriving DecidableEq

/-- A 32-bit word of the encoded command buffer: either the raw IEEE-754 bit
pattern of a float value (written through u_fui) or an integral word. -/
inductive CWord where
  | bits : ℚ → CWord
  | uint : ℕ → CWord
  deriving DecidableEq

/-- Reinterpretation of a float value as its raw 32-bit pattern (u_fui in the
source); kept abstract, recording only which value was stored. -/
def u_fui (q : ℚ) : CWord := CWord.bits q

/-- Maximum screen-space extent half-range used by viewport_get_guardband:
32768 at generation 7 and above, 16384 below. -/
def gpu_max_extent (gen : ℕ) : ℤ :=
  if 70 ≤ gen then 32768 else 16384

/-- Per-axis clamping step of viewport_get_guardband, applied independently to
each axis with half_len = 8192 / 2 = 4096. -/
def guardband_clamp (max_extent center : ℤ) : ℤ :=
  let half_len : ℤ := 8192 / 2
  if center - half_len < -max_extent then -max_extent + half_len
  else if center + half_len > max_extent - 1 then max_extent - half_len
  else center

/-- Translation of viewport_get_guardband: clamp the center per axis, then
return (min_gbx, max_gbx, min_gby, max_gby). The final casts through float in
the source are exact (the clamped outputs lie in [-32768, 32768], below 2^24)
and are therefore identities here. -/
def viewport_get_guardband (gen : ℕ) (center_x center_y : ℤ) : ℤ × ℤ × ℤ × ℤ :=
  let max_extent := gpu_max_extent gen
  let half_len : ℤ := 8192 / 2
  let cx := guardband_clamp max_extent center_x
  let cy := guardband_clamp max_extent center_y
  (cx - half_len, cx + half_len, cy - half_len, cy + half_len)

/-- Modelled from the spec: INTEL_MAX_VIEWPORTS comes from a header that is
not among the sources; the spec gives the hardware maximum viewport count as
16. -/
def INTEL_MAX_VIEWPORTS : ℕ := 16

/-- Modelled from the spec: the state holder declares a fixed buffer
"sized to the worst-case encoding for the maximum viewport count and the
larger-layout generation"; the worst case is the generation >= 7 layout of
16 + 2 + 2 = 20 words per viewport, at 4 bytes per word. -/
def cmd_buffer_capacity : ℕ := 4 * (20 * INTEL_MAX_VIEWPORTS)

/-- The struct intel_dynamic_viewport state holder: viewport count, total
encoded length in words, the three sub-block offsets, and the fixed command
buffer (modelled as a total map from word index to word). -/
structure intel_dynamic_viewport where
  viewport_count : ℕ
  cmd_len : ℕ
  cmd_clip_pos : ℕ
  cmd_cc_pos : ℕ
  cmd_scissor_rect_pos : ℕ
  cmd : ℕ → CWord

/-- Translation of viewport_state_cmd: record the count, then lay out the
sub-blocks in the order the source updates the fields. -/
def viewport_state_cmd (st : intel_dynamic_viewport) (gen count : ℕ) :
    intel_dynamic_viewport :=
  let s1 := { st with viewport_count := count }
  let s2 :=
    if 70 ≤ gen then
      { s1 with cmd_len := 16 * count, cmd_clip_pos := 8 }
    else
      let t := { s1 with cmd_len := 8 * count }
      { t with cmd_clip_pos := t.cmd_len, cmd_len := t.cmd_len + 4 * count }
  let s3 := { s2 with cmd_cc_pos := s2.cmd_len, cmd_len := s2.cmd_len + 2 * count }
  { s3 with cmd_scissor_rect_pos := s3.cmd_len, cmd_len := s3.cmd_len + 2 * count }

/-- The clamp rule exactly as the specification words it, with the extent as
an explicit parameter; used to compare the source function against the
specification text. -/
def specClamp (extent c : ℤ) : ℤ :=
  if c - 4096 < -extent then -extent + 4096
  else if c + 4096 > extent - 1 then extent - 4096
  else c

/-- The generation-dependent extent exactly as the specification words it:
16384 below generation 7, 32768 at generation 7 and above. -/
def specExtent (gen : ℕ) : ℤ :=
  if 70 ≤ gen then 32768 else 16384

/-- Truncation of a rational toward zero, the semantics of the C cast from
float to int used on translate[0] and translate[1]. -/
def ctrunc (q : ℚ) : ℤ :=
  if q < 0 then ⌈q⌉ else ⌊q⌋

/-- The SF_VIEWPORT entry written by the loop body of set_viewport_state:
scale and translate computed from the viewport, stored as raw float bit
patterns, followed by two zero words. -/
def sfWords (v : VkViewport) : List CWord :=
  let scale0 := v.width / 2
  let scale1 := v.height / 2
  let scale2 := v.maxDepth - v.minDepth
  let translate0 := v.originX + scale0
  let translate1 := v.originY + scale1
  let translate2 := v.minDepth
  [u_fui scale0, u_fui scale1, u_fui scale2,
   u_fui translate0, u_fui translate1, u_fui translate2,
   CWord.uint 0, CWord.uint 0]

/-- The CLIP_VIEWPORT entry written by the loop body of set_viewport_state:
the guardband bounds normalized relative to the viewport. -/
def clipWords (gen : ℕ) (v : VkViewport) : List CWord :=
  let scale0 := v.width / 2
  let scale1 := v.height / 2
  let translate0 := v.originX + scale0
  let translate1 := v.originY + scale1
  let gb := viewport_get_guardband gen (ctrunc translate0) (ctrunc translate1)
  [u_fui (((gb.1 : ℚ) - translate0) / |scale0|),
   u_fui (((gb.2.1 : ℚ) - translate0) / |scale0|),
   u_fui (((gb.2.2.1 : ℚ) - translate1) / |scale1|),
   u_fui (((gb.2.2.2 : ℚ) - translate1) / |scale1|)]

/-- The CC_VIEWPORT entry written by the loop body of set_viewport_state. -/
def ccWords (v : VkViewport) : List CWord :=
  [u_fui v.minDepth, u_fui v.maxDepth]

/-- Value of a C int16_t variable holding the 16-bit pattern n (n < 65536):
values of 32768 and above wrap to negatives. -/
def toS16 (n : ℕ) : ℤ :=
  if n < 32768 then (n : ℤ) else (n : ℤ) - 65536

/-- Two's-complement 32-bit pattern of a C int value, as a natural number. -/
def toU32 (z : ℤ) : ℕ :=
  (z % 4294967296).toNat

/-- The SCISSOR_RECT entry written by the second loop of set_viewport_state.
max_x and max_y are int16_t in the source: the 16-bit masked sums wrap into
signed 16-bit values, which are sign-extended when promoted back to int in
the expression for the second word (max_y shifted left by 16 is taken modulo
2^32, as the C shift of a promoted int stores into a uint32_t). -/
def scissorWords (s : VkRect2D) : List CWord :=
  let max_x : ℤ := toS16 (((s.offset.x + (s.extent.width : ℤ) - 1) % 65536).toNat)
  let max_y : ℤ := toS16 (((s.offset.y + (s.extent.height : ℤ) - 1) % 65536).toNat)
  if s.extent.width ≠ 0 ∧ s.extent.height ≠ 0 then
    [CWord.uint (((s.offset.y % 65536).toNat <<< 16) ||| (s.offset.x % 65536).toNat),
     CWord.uint (toU32 (max_y * 65536) ||| toU32 max_x)]
  else
    [CWord.uint ((1 <<< 16) ||| 1), CWord.uint 0]

/-- Consecutive word stores dw[0] = w0, dw[1] = w1, ... starting at pos. -/
def writeWords : (ℕ → CWord) → ℕ → List CWord → (ℕ → CWord)
  | buf, _, [] => buf
  | buf, pos, w :: ws => writeWords (Function.update buf pos w) (pos + 1) ws

/-- The first loop of set_viewport_state: for each viewport write the SF,
CLIP and CC entries at the current positions, then advance the SF and CLIP
positions by their strides and the CC position by 2. -/
def viewportLoop (gen sf_stride clip_stride : ℕ) :
    List VkViewport → ℕ → ℕ → ℕ → (ℕ → CWord) → (ℕ → CWord)
  | [], _, _, _, buf => buf
  | v :: rest, sf, clip, cc, buf =>
    let buf1 := writeWords buf sf (sfWords v)
    let buf2 := writeWords buf1 clip (clipWords gen v)
    let buf3 := writeWords buf2 cc (ccWords v)
    viewportLoop gen sf_stride clip_stride rest
      (sf + sf_stride) (clip + clip_stride) (cc + 2) buf3

/-- The second loop of set_viewport_state: write each scissor entry and
advance the position by 2. -/
def scissorLoop : List VkRect2D → ℕ → (ℕ → CWord) → (ℕ → CWord)
  | [], _, buf => buf
  | s :: rest, pos, buf => scissorLoop rest (pos + 2) (writeWords buf pos (scissorWords s))

/-- Translation of set_viewport_state: plan the layout for the number of
supplied viewports, then run the two encoding loops over the buffer. The C
function receives count and index-paired arrays of exactly count elements;
here the lists carry the count. -/
def set_viewport_state (gen : ℕ) (viewports : List VkViewport)
    (scissors : List VkRect2D) (st0 : intel_dynamic_viewport) :
    intel_dynamic_viewport :=
  let count := viewports.length
  let sf_stride := if 70 ≤ gen then 16 else 8
  let clip_stride := if 70 ≤ gen then 16 else 4
  let st := viewport_state_cmd st0 gen count
  let buf1 := viewportLoop gen sf_stride clip_stride viewports
    0 st.cmd_clip_pos st.cmd_cc_pos st.cmd
  let buf2 := scissorLoop scissors st.cmd_scissor_rect_pos buf1
  { st with cmd := buf2 }

/-- Word positions covered by the SF entries laid out by the planner: the
i-th viewport writes 8 words starting at its SF stride times i. -/
def sfWritten (gen count n : ℕ) : Prop :=
  ∃ i, i < count ∧ ∃ k, k < 8 ∧ n = (if 70 ≤ gen then 16 else 8) * i + k

/-- Word positions covered by the CLIP entries: the i-th viewport writes 4
words starting at the CLIP offset plus its CLIP stride times i. -/
def clipWritten (gen count n : ℕ) : Prop :=
  ∃ i, i < count ∧ ∃ k, k < 4 ∧
    n = (if 70 ≤ gen then 8 else 8 * count) + (if 70 ≤ gen then 16 else 4) * i + k

/-- Word positions covered by the CC entries: 2 words per viewport from the
CC offset. -/
def ccWritten (gen count n : ℕ) : Prop :=
  ∃ i, i < count ∧ ∃ k, k < 2 ∧
    n = (if 70 ≤ gen then 16 * count else 12 * count) + 2 * i + k

/-- Word positions covered by the scissor entries: 2 words per viewport from
the scissor offset. -/
def scissorWritten (gen count n : ℕ) : Prop :=
  ∃ i, i < count ∧ ∃ k, k < 2 ∧
    n = (if 70 ≤ gen then 18 * count else 14 * count) + 2 * i + k

/-- Stencil state of one face: compare mask, write mask and reference. -/
structure intel_stencil_face_state where
  stencil_compare_mask : ℕ
  stencil_write_mask : ℕ
  stencil_reference : ℕ
  deriving DecidableEq

/-- Front and back face stencil state, the fields the three stencil setters
touch in cmd->bind.state.stencil. -/
structure intel_stencil_state where
  front : intel_stencil_face_state
  back : intel_stencil_face_state
  deriving DecidableEq

/-- Modelled from the spec: VK_STENCIL_FACE_FRONT_BIT is declared in the API
header, which is not among the sources; the spec says the face mask selects
front, back, or both, so the two flags are distinct single bits. -/
def VK_STENCIL_FACE_FRONT_BIT : ℕ := 1

/-- Modelled from the spec: VK_STENCIL_FACE_BACK_BIT, see
VK_STENCIL_FACE_FRONT_BIT. -/
def VK_STENCIL_FACE_BACK_BIT : ℕ := 2

/-- Translation of vkCmdSetStencilCompareMask restricted to the stencil
state it mutates. -/
def vkCmdSetStencilCompareMask (st : intel_stencil_state)
    (faceMask stencilCompareMask : ℕ) : intel_stencil_state :=
  let st1 :=
    if faceMask &&& VK_STENCIL_FACE_FRONT_BIT ≠ 0 then
      { st with front := { st.front with stencil_compare_mask := stencilCompareMask } }
    else st
  if faceMask &&& VK_STENCIL_FACE_BACK_BIT ≠ 0 then
    { st1 with back := { st1.back with stencil_compare_mask := stencilCompareMask } }
  else st1

/-- Translation of vkCmdSetStencilWriteMask restricted to the stencil state
it mutates. -/
def vkCmdSetStencilWriteMask (st : intel_stencil_state)
    (faceMask stencilWriteMask : ℕ) : intel_stencil_state :=
  let st1 :=
    if faceMask &&& VK_STENCIL_FACE_FRONT_BIT ≠ 0 then
      { st with front := { st.front with stencil_write_mask := stencilWriteMask } }
    else st
  if faceMask &&& VK_STENCIL_FACE_BACK_BIT ≠ 0 then
    { st1 with back := { st1.back with stencil_write_mask := stencilWriteMask } }
  else st1

/-- Translation of vkCmdSetStencilReference restricted to the stencil state
it mutates. -/
def vkCmdSetStencilReference (st : intel_stencil_state)
    (faceMask stencilReference : ℕ) : intel_stencil_state :=
  let st1 :=
    if faceMask &&& VK_STENCIL_FACE_FRONT_BIT ≠ 0 then
      { st with front := { st.front with stencil_reference := stencilReference } }
    else st
  if faceMask &&& VK_STENCIL_FACE_BACK_BIT ≠ 0 then
    { st1 with back := { st1.back with stencil_reference := stencilReference } }
  else st1

/-- A concrete state holder used to instantiate theorems with hypotheses. -/
def stExample : intel_dynamic_viewport :=
  ⟨0, 0, 0, 0, 0, fun _ => CWord.uint 0⟩

/-- The example viewport of the specification: origin (0,0), extent
(800,600), depth range (0,1). -/
def vpExample : VkViewport :=
  ⟨0, 0, 800, 600, 0, 1⟩

/-- The example scissor of the specification: offset (10,20), extent
(100,50). -/
def scExample : VkRect2D :=
  ⟨⟨10, 20⟩, ⟨100, 50⟩⟩

/-- C1: for generation >= 7 the planner sets total length 16c + 2c + 2c with
CLIP offset 8; below generation 7 it sets 8c + 4c + 2c + 2c with CLIP offset
8c; in both cases the CC offset is the length accumulated before the CC
block and the scissor offset is the length accumulated before the scissor
block. -/
theorem viewport_state_cmd_layout (gen count : ℕ) (st : intel_dynamic_viewport)
    (hlo : 1 ≤ count) (hhi : count ≤ INTEL_MAX_VIEWPORTS) :
    (70 ≤ gen →
      (viewport_state_cmd st gen count).cmd_len = 16 * count + 2 * count + 2 * count ∧
      (viewport_state_cmd st gen count).cmd_clip_pos = 8 ∧
      (viewport_state_cmd st gen count).cmd_cc_pos = 16 * count ∧
      (viewport_state_cmd st gen count).cmd_scissor_rect_pos = 16 * count + 2 * count) ∧
    (gen < 70 →
      (viewport_state_cmd st gen count).cmd_len =
        8 * count + 4 * count + 2 * count + 2 * count ∧
      (viewport_state_cmd st gen count).cmd_clip_pos = 8 * count ∧
      (viewport_state_cmd st gen count).cmd_cc_pos = 8 * count + 4 * count ∧
      (viewport_state_cmd st gen count).cmd_scissor_rect_pos =
        8 * count + 4 * count + 2 * count) := by
  constructor
  · intro h
    simp [viewport_state_cmd, h]
  · intro h
    have h7 : ¬ 70 ≤ gen := by omega
    simp [viewport_state_cmd, h7]

/-- Witness for the layout theorem at generation 7, count 3. -/
theorem viewport_state_cmd_layout_witness :
    (1 ≤ 3 ∧ 3 ≤ INTEL_MAX_VIEWPORTS) ∧
    ((70 ≤ 70 →
      (viewport_state_cmd stExample 70 3).cmd_len = 16 * 3 + 2 * 3 + 2 * 3 ∧
      (viewport_state_cmd stExample 70 3).cmd_clip_pos = 8 ∧
      (viewport_state_cmd stExample 70 3).cmd_cc_pos = 16 * 3 ∧
      (viewport_state_cmd stExample 70 3).cmd_scissor_rect_pos = 16 * 3 + 2 * 3) ∧
    ((70 : ℕ) < 70 →
      (viewport_state_cmd stExample 70 3).cmd_len = 8 * 3 + 4 * 3 + 2 * 3 + 2 * 3 ∧
      (viewport_state_cmd stExample 70 3).cmd_clip_pos = 8 * 3 ∧
      (viewport_state_cmd stExample 70 3).cmd_cc_pos = 8 * 3 + 4 * 3 ∧
      (viewport_state_cmd stExample 70 3).cmd_scissor_rect_pos =
        8 * 3 + 4 * 3 + 2 * 3)) :=
  ⟨⟨by decide, by decide⟩,
   viewport_state_cmd_layout 70 3 stExample (by decide) (by decide)⟩

/-- C2: for every integer center and every generation tier, the guardband
calculator applies exactly the clamp rule the specification states (clamp to
-extent + 4096 when center - 4096 underruns -extent, else to extent - 4096
when center + 4096 overruns extent - 1) independently per axis, and returns
min = center - 4096, max = center + 4096 on each axis; it is total over the
integers with no error path. -/
theorem viewport_get_guardband_spec (gen : ℕ) (cx cy : ℤ) :
    viewport_get_guardband gen cx cy =
      (specClamp (specExtent gen) cx - 4096,
       specClamp (specExtent gen) cx + 4096,
       specClamp (specExtent gen) cy - 4096,
       specClamp (specExtent gen) cy + 4096) := by
  unfold viewport_get_guardband guardband_clamp gpu_max_extent specClamp specExtent
  norm_num

/-- C9: the per-axis guardband clamp is idempotent for both generation
extents. -/
theorem guardband_clamp_idempotent (gen : ℕ) (c : ℤ) :
    guardband_clamp (gpu_max_extent gen) (guardband_clamp (gpu_max_extent gen) c) =
      guardband_clamp (gpu_max_extent gen) c := by
  simp only [guardband_clamp, gpu_max_extent]
  split_ifs <;> omega

/-- C6, evaluation at the failing input: at generation 7 with center
(32768, 0), the upper guardband bound on x is pinned to 32768 = extent, one
past the extent boundary extent - 1 = 32767 required by the claim (and by the
valid range [-32K, 32K-1] quoted from the PRM in the source comment), while
the y axis is unclamped. -/
theorem guardband_upper_overshoot :
    viewport_get_guardband 70 32768 0 = (24576, 32768, -4096, 4096) := by decide

/-- C8: for every supported generation and every count up to the hardware
maximum, the planned total length in bytes fits the fixed buffer capacity,
so the defensive capacity assertion never fires. -/
theorem viewport_state_cmd_capacity (gen count : ℕ) (st : intel_dynamic_viewport)
    (hgen : 60 ≤ gen ∧ gen ≤ 75) (hcount : count ≤ INTEL_MAX_VIEWPORTS) :
    4 * (viewport_state_cmd st gen count).cmd_len ≤ cmd_buffer_capacity := by
  have hc : count ≤ 16 := hcount
  unfold viewport_state_cmd cmd_buffer_capacity INTEL_MAX_VIEWPORTS
  split_ifs <;> simp <;> omega

/-- Witness for the capacity theorem at generation 7.5, count 16. -/
theorem viewport_state_cmd_capacity_witness :
    (60 ≤ 75 ∧ 75 ≤ 75) ∧ 16 ≤ INTEL_MAX_VIEWPORTS ∧
      4 * (viewport_state_cmd stExample 75 16).cmd_len ≤ cmd_buffer_capacity :=
  ⟨⟨by decide, by decide⟩, by decide,
   viewport_state_cmd_capacity 75 16 stExample ⟨by decide, by decide⟩ (by decide)⟩

/-- Lengths of the four entry kinds, fixed by their list literals. -/
theorem sfWords_length (v : VkViewport) : (sfWords v).length = 8 := rfl

/-- Length of the CLIP entry. -/
theorem clipWords_length (gen : ℕ) (v : VkViewport) : (clipWords gen v).length = 4 := rfl

/-- Length of the CC entry. -/
theorem ccWords_length (v : VkViewport) : (ccWords v).length = 2 := rfl

/-- Reading strictly below the window of a word store is unchanged. -/
theorem writeWords_lt (ws : List CWord) (buf : ℕ → CWord) (pos n : ℕ)
    (h : n < pos) : writeWords buf pos ws n = buf n := by
  induction ws generalizing buf pos with
  | nil => rfl
  | cons w rest ih =>
    simp only [writeWords]
    rw [ih _ _ (by omega)]
    exact Function.update_noteq (by omega) _ _

/-- Reading the k-th word of a store returns the k-th stored word. -/
theorem writeWords_get (ws : List CWord) (buf : ℕ → CWord) (pos k : ℕ)
    (h : k < ws.length) :
    writeWords buf pos ws (pos + k) = ws.getD k (CWord.uint 0) := by
  induction ws generalizing buf pos k with
  | nil => simp at h
  | cons w rest ih =>
    cases k with
    | zero =>
      simp only [writeWords, List.getD_cons_zero, Nat.add_zero]
      rw [writeWords_lt _ _ _ _ (by omega)]
      simp
    | succ j =>
      have hj : j < rest.length := by simpa using h
      have hpos : pos + (j + 1) = (pos + 1) + j := by omega
      simp only [writeWords, List.getD_cons_succ]
      rw [hpos, ih _ _ _ hj]

/-- The viewport loop never touches a position strictly below all three of
its write positions. -/
theorem viewportLoop_lt (gen ss cs : ℕ) (vps : List VkViewport)
    (sf clip cc : ℕ) (buf : ℕ → CWord) (n : ℕ)
    (h1 : n < sf) (h2 : n < clip) (h3 : n < cc) :
    viewportLoop gen ss cs vps sf clip cc buf n = buf n := by
  induction vps generalizing sf clip cc buf with
  | nil => rfl
  | cons v rest ih =>
    simp only [viewportLoop]
    rw [ih _ _ _ _ (by omega) (by omega) (by omega)]
    rw [writeWords_lt _ _ _ _ h3, writeWords_lt _ _ _ _ h2,
      writeWords_lt _ _ _ _ h1]

/-- The scissor loop never touches a position strictly below its write
position. -/
theorem scissorLoop_lt (ss : List VkRect2D) (pos : ℕ) (buf : ℕ → CWord)
    (n : ℕ) (h : n < pos) : scissorLoop ss pos buf n = buf n := by
  induction ss generalizing pos buf with
  | nil => rfl
  | cons s rest ih =>
    simp only [scissorLoop]
    rw [ih _ _ (by omega), writeWords_lt _ _ _ _ h]

/-- At generation >= 7 the planner output as a record literal. -/
theorem viewport_state_cmd_ge7 (st : intel_dynamic_viewport) (gen count : ℕ)
    (h : 70 ≤ gen) :
    viewport_state_cmd st gen count =
      ⟨count, 16 * count + 2 * count + 2 * count, 8, 16 * count,
       16 * count + 2 * count, st.cmd⟩ := by
  simp [viewport_state_cmd, h]

/-- Below generation 7 the planner output as a record literal. -/
theorem viewport_state_cmd_lt7 (st : intel_dynamic_viewport) (gen count : ℕ)
    (h : ¬ 70 ≤ gen) :
    viewport_state_cmd st gen count =
      ⟨count, 8 * count + 4 * count + 2 * count + 2 * count, 8 * count,
       8 * count + 4 * count, 8 * count + 4 * count + 2 * count, st.cmd⟩ := by
  simp [viewport_state_cmd, h]

/-- SF entry read-back through the generation >= 7 loop: strides 16/16, the
CLIP position following the SF position by 8, the CC position past the whole
SF region. -/
theorem viewportLoop_sf_ge7 (gen : ℕ) (vps : List VkViewport) (sf cc : ℕ)
    (buf : ℕ → CWord) (i k : ℕ) (hi : i < vps.length) (hk : k < 8)
    (hcc : sf + 16 * vps.length ≤ cc) :
    viewportLoop gen 16 16 vps sf (sf + 8) cc buf (sf + 16 * i + k) =
      (sfWords (vps.get ⟨i, hi⟩)).getD k (CWord.uint 0) := by
  induction vps generalizing sf cc buf i with
  | nil => simp at hi
  | cons v rest ih =>
    have hlen : rest.length + 1 = (v :: rest).length := by simp
    cases i with
    | zero =>
      have hn : sf + 16 * 0 + k = sf + k := by omega
      have hcc0 : sf + k < cc := by
        rw [List.length_cons] at hcc
        omega
      rw [hn]
      simp only [viewportLoop]
      rw [viewportLoop_lt gen 16 16 rest (sf + 16) (sf + 8 + 16) (cc + 2) _
        (sf + k) (by omega) (by omega) (by omega)]
      rw [writeWords_lt _ _ _ _ hcc0]
      rw [writeWords_lt _ _ _ _ (by omega)]
      rw [writeWords_get _ _ _ _ (by rw [sfWords_length]; exact hk)]
      simp
    | succ j =>
      have hj : j < rest.length := by simpa using hi
      have hn : sf + 16 * (j + 1) + k = (sf + 16) + 16 * j + k := by omega
      have hclip : sf + 8 + 16 = (sf + 16) + 8 := by omega
      have hcc2 : (sf + 16) + 16 * rest.length ≤ cc + 2 := by
        rw [List.length_cons] at hcc
        omega
      simp only [viewportLoop]
      rw [hn, hclip, ih (sf + 16) (cc + 2) _ j hj hcc2]
      simp

/-- SF entry read-back through the below-generation-7 loop: strides 8/4, the
CLIP region past the whole SF region, the CC region past the whole CLIP
region. -/
theorem viewportLoop_sf_lt7 (gen : ℕ) (vps : List VkViewport)
    (sf clip cc : ℕ) (buf : ℕ → CWord) (i k : ℕ) (hi : i < vps.length)
    (hk : k < 8) (hclip : sf + 8 * vps.length ≤ clip)
    (hcc : clip + 4 * vps.length ≤ cc) :
    viewportLoop gen 8 4 vps sf clip cc buf (sf + 8 * i + k) =
      (sfWords (vps.get ⟨i, hi⟩)).getD k (CWord.uint 0) := by
  induction vps generalizing sf clip cc buf i with
  | nil => simp at hi
  | cons v rest ih =>
    cases i with
    | zero =>
      have hn : sf + 8 * 0 + k = sf + k := by omega
      have hsfclip : sf + k < clip := by
        rw [List.length_cons] at hclip
        omega
      have hsfcc : sf + k < cc := by
        rw [List.length_cons] at hcc
        omega
      rw [hn]
      simp only [viewportLoop]
      rw [viewportLoop_lt gen 8 4 rest (sf + 8) (clip + 4) (cc + 2) _
        (sf + k) (by omega) (by omega) (by omega)]
      rw [writeWords_lt _ _ _ _ hsfcc]
      rw [writeWords_lt _ _ _ _ hsfclip]
      rw [writeWords_get _ _ _ _ (by rw [sfWords_length]; exact hk)]
      simp
    | succ j =>
      have hj : j < rest.length := by simpa using hi
      have hn : sf + 8 * (j + 1) + k = (sf + 8) + 8 * j + k := by omega
      have hclip2 : (sf + 8) + 8 * rest.length ≤ clip + 4 := by
        rw [List.length_cons] at hclip
        omega
      have hcc2 : (clip + 4) + 4 * rest.length ≤ cc + 2 := by
        rw [List.length_cons] at hcc
        omega
      simp only [viewportLoop]
      rw [hn, ih (sf + 8) (clip + 4) (cc + 2) _ j hj hclip2 hcc2]
      simp

/-- C3: for every viewport in the input array, the encoder computes
scale = (width/2, height/2, maxDepth - minDepth) and translate =
(originX + scale.x, originY + scale.y, minDepth) and writes the 8-word SF
entry at that viewport's slot (the slot advances by the generation's
per-viewport stride) as the raw float bit patterns of scale.x, scale.y,
scale.z, translate.x, translate.y, translate.z followed by two zero words. -/
theorem set_viewport_state_sf_entry (gen : ℕ) (viewports : List VkViewport)
    (scissors : List VkRect2D) (st : intel_dynamic_viewport) (i : ℕ)
    (hi : i < viewports.length) :
    (set_viewport_state gen viewports scissors st).cmd
        ((if 70 ≤ gen then 16 else 8) * i) =
      u_fui ((viewports.get ⟨i, hi⟩).width / 2) ∧
    (set_viewport_state gen viewports scissors st).cmd
        ((if 70 ≤ gen then 16 else 8) * i + 1) =
      u_fui ((viewports.get ⟨i, hi⟩).height / 2) ∧
    (set_viewport_state gen viewports scissors st).cmd
        ((if 70 ≤ gen then 16 else 8) * i + 2) =
      u_fui ((viewports.get ⟨i, hi⟩).maxDepth - (viewports.get ⟨i, hi⟩).minDepth) ∧
    (set_viewport_state gen viewports scissors st).cmd
        ((if 70 ≤ gen then 16 else 8) * i + 3) =
      u_fui ((viewports.get ⟨i, hi⟩).originX + (viewports.get ⟨i, hi⟩).width / 2) ∧
    (set_viewport_state gen viewports scissors st).cmd
        ((if 70 ≤ gen then 16 else 8) * i + 4) =
      u_fui ((viewports.get ⟨i, hi⟩).originY + (viewports.get ⟨i, hi⟩).height / 2) ∧
    (set_viewport_state gen viewports scissors st).cmd
        ((if 70 ≤ gen then 16 else 8) * i + 5) =
      u_fui ((viewports.get ⟨i, hi⟩).minDepth) ∧
    (set_viewport_state gen viewports scissors st).cmd
        ((if 70 ≤ gen then 16 else 8) * i + 6) = CWord.uint 0 ∧
    (set_viewport_state gen viewports scissors st).cmd
        ((if 70 ≤ gen then 16 else 8) * i + 7) = CWord.uint 0 := by
  have hlen : 1 ≤ viewports.length := by omega
  have key : ∀ k, k < 8 →
      (set_viewport_state gen viewports scissors st).cmd
        ((if 70 ≤ gen then 16 else 8) * i + k) =
      (sfWords (viewports.get ⟨i, hi⟩)).getD k (CWord.uint 0) := by
    intro k hk
    by_cases h7 : 70 ≤ gen
    · simp only [set_viewport_state, h7, if_true,
        viewport_state_cmd_ge7 st gen viewports.length h7]
      rw [scissorLoop_lt scissors (16 * viewports.length + 2 * viewports.length)
        _ (16 * i + k) (by omega)]
      have hpos : 16 * i + k = 0 + 16 * i + k := by omega
      have hclip : (8 : ℕ) = 0 + 8 := by omega
      rw [hpos, hclip]
      exact viewportLoop_sf_ge7 gen viewports 0 (16 * viewports.length)
        st.cmd i k hi hk (by omega)
    · simp only [set_viewport_state, h7, if_false,
        viewport_state_cmd_lt7 st gen viewports.length h7]
      rw [scissorLoop_lt scissors
        (8 * viewports.length + 4 * viewports.length + 2 * viewports.length)
        _ (8 * i + k) (by omega)]
      have hpos : 8 * i + k = 0 + 8 * i + k := by omega
      rw [hpos]
      exact viewportLoop_sf_lt7 gen viewports 0 (8 * viewports.length)
        (8 * viewports.length + 4 * viewports.length)
        st.cmd i k hi hk (by omega) (by omega)
  refine ⟨?_, ?_, ?_, ?_, ?_, ?_, ?_, ?_⟩
  · simpa [sfWords] using key 0 (by omega)
  · simpa [sfWords] using key 1 (by omega)
  · simpa [sfWords] using key 2 (by omega)
  · simpa [sfWords] using key 3 (by omega)
  · simpa [sfWords] using key 4 (by omega)
  · simpa [sfWords] using key 5 (by omega)
  · simpa [sfWords] using key 6 (by omega)
  · simpa [sfWords] using key 7 (by omega)

/-- Witness for the SF entry theorem at generation 7 on the specification
example viewport (origin (0,0), extent (800,600), depth (0,1)): scale =
(400, 300, 1), translate = (400, 300, 0). -/
theorem set_viewport_state_sf_entry_witness :
    0 < ([vpExample] : List VkViewport).length ∧
    ((set_viewport_state 70 [vpExample] [scExample] stExample).cmd 0 =
        u_fui 400 ∧
      (set_viewport_state 70 [vpExample] [scExample] stExample).cmd 1 =
        u_fui 300 ∧
      (set_viewport_state 70 [vpExample] [scExample] stExample).cmd 2 =
        u_fui 1 ∧
      (set_viewport_state 70 [vpExample] [scExample] stExample).cmd 3 =
        u_fui 400 ∧
      (set_viewport_state 70 [vpExample] [scExample] stExample).cmd 4 =
        u_fui 300 ∧
      (set_viewport_state 70 [vpExample] [scExample] stExample).cmd 5 =
        u_fui 0 ∧
      (set_viewport_state 70 [vpExample] [scExample] stExample).cmd 6 =
        CWord.uint 0 ∧
      (set_viewport_state 70 [vpExample] [scExample] stExample).cmd 7 =
        CWord.uint 0) := by
  constructor
  · norm_num
  · have h := set_viewport_state_sf_entry 70 [vpExample] [scExample]
      stExample 0 (by norm_num)
    norm_num [vpExample] at h
    exact h

/-- C4: a scissor whose extent has zero width or zero height encodes as
word0 = 0x00010001 and word1 = 0, for any offset and any other extent
component. -/
theorem scissor_degenerate (s : VkRect2D)
    (h : s.extent.width = 0 ∨ s.extent.height = 0) :
    scissorWords s = [CWord.uint 0x00010001, CWord.uint 0] := by
  have hcond : ¬ (s.extent.width ≠ 0 ∧ s.extent.height ≠ 0) := by
    rcases h with h | h <;> simp [h]
  simp only [scissorWords, if_neg hcond]
  decide

/-- Witness for the degenerate scissor theorem at offset (5,7), extent
(0,9). -/
theorem scissor_degenerate_witness :
    ((⟨⟨5, 7⟩, ⟨0, 9⟩⟩ : VkRect2D).extent.width = 0 ∨
      (⟨⟨5, 7⟩, ⟨0, 9⟩⟩ : VkRect2D).extent.height = 0) ∧
    scissorWords ⟨⟨5, 7⟩, ⟨0, 9⟩⟩ = [CWord.uint 0x00010001, CWord.uint 0] :=
  ⟨Or.inl rfl, scissor_degenerate _ (Or.inl rfl)⟩

/-- C5, evaluation at the failing input: for the scissor with offset (0,0)
and extent (32769,1), the first word is 0 as the claim computes, but the
second word is 0xFFFF8000 = 4294934528 instead of the claimed
max_y <<< 16 ||| max_x = 0 <<< 16 ||| 0x8000 = 32768: the int16_t max_x
sign-extends when promoted, forcing the upper half of the word to 0xFFFF. -/
theorem scissor_sign_extension_eval :
    scissorWords ⟨⟨0, 0⟩, ⟨32769, 1⟩⟩ =
      [CWord.uint 0, CWord.uint 4294934528] ∧
    (4294934528 : ℕ) ≠ (0 <<< 16) ||| 32768 := by
  refine ⟨by decide, by decide⟩

/-- C7: after planning, the sub-block offsets (SF at 0, then CLIP, CC,
scissor) are monotonically increasing, the word positions of the four entry
kinds never overlap, and each region is its per-viewport stride times the
count: at generation >= 7 the SF region of stride 16 (with the CLIP entry
interleaved at word offset 8 of each 16-word slot, same stride) runs to the
CC offset; below generation 7 the SF region of stride 8 runs to the CLIP
offset and the CLIP region of stride 4 to the CC offset; the CC and scissor
regions are 2 words per viewport for all generations. -/
theorem viewport_layout_invariants (gen count : ℕ) (st : intel_dynamic_viewport)
    (hgen : 60 ≤ gen ∧ gen ≤ 75) (hcount : 1 ≤ count) :
    (0 < (viewport_state_cmd st gen count).cmd_clip_pos ∧
      (viewport_state_cmd st gen count).cmd_clip_pos <
        (viewport_state_cmd st gen count).cmd_cc_pos ∧
      (viewport_state_cmd st gen count).cmd_cc_pos <
        (viewport_state_cmd st gen count).cmd_scissor_rect_pos ∧
      (viewport_state_cmd st gen count).cmd_scissor_rect_pos <
        (viewport_state_cmd st gen count).cmd_len) ∧
    (∀ n, ¬ (sfWritten gen count n ∧ clipWritten gen count n)) ∧
    (∀ n, ¬ (sfWritten gen count n ∧ ccWritten gen count n)) ∧
    (∀ n, ¬ (sfWritten gen count n ∧ scissorWritten gen count n)) ∧
    (∀ n, ¬ (clipWritten gen count n ∧ ccWritten gen count n)) ∧
    (∀ n, ¬ (clipWritten gen count n ∧ scissorWritten gen count n)) ∧
    (∀ n, ¬ (ccWritten gen count n ∧ scissorWritten gen count n)) ∧
    (70 ≤ gen →
      (viewport_state_cmd st gen count).cmd_cc_pos = 16 * count ∧
      (viewport_state_cmd st gen count).cmd_scissor_rect_pos =
        (viewport_state_cmd st gen count).cmd_cc_pos + 2 * count ∧
      (viewport_state_cmd st gen count).cmd_len =
        (viewport_state_cmd st gen count).cmd_scissor_rect_pos + 2 * count) ∧
    (gen < 70 →
      (viewport_state_cmd st gen count).cmd_clip_pos = 8 * count ∧
      (viewport_state_cmd st gen count).cmd_cc_pos =
        (viewport_state_cmd st gen count).cmd_clip_pos + 4 * count ∧
      (viewport_state_cmd st gen count).cmd_scissor_rect_pos =
        (viewport_state_cmd st gen count).cmd_cc_pos + 2 * count ∧
      (viewport_state_cmd st gen count).cmd_len =
        (viewport_state_cmd st gen count).cmd_scissor_rect_pos + 2 * count) := by
  by_cases h7 : 70 ≤ gen
  · rw [viewport_state_cmd_ge7 st gen count h7]
    dsimp only
    refine ⟨⟨by omega, by omega, by omega, by omega⟩,
      ?_, ?_, ?_, ?_, ?_, ?_, fun _ => ⟨rfl, by omega, by omega⟩, fun h => by omega⟩
    · intro n hn
      simp only [sfWritten, clipWritten, h7, if_true] at hn
      obtain ⟨⟨i, hi, k, hk, h1⟩, ⟨j, hj, l, hl, h2⟩⟩ := hn
      omega
    · intro n hn
      simp only [sfWritten, ccWritten, h7, if_true] at hn
      obtain ⟨⟨i, hi, k, hk, h1⟩, ⟨j, hj, l, hl, h2⟩⟩ := hn
      omega
    · intro n hn
      simp only [sfWritten, scissorWritten, h7, if_true] at hn
      obtain ⟨⟨i, hi, k, hk, h1⟩, ⟨j, hj, l, hl, h2⟩⟩ := hn
      omega
    · intro n hn
      simp only [clipWritten, ccWritten, h7, if_true] at hn
      obtain ⟨⟨i, hi, k, hk, h1⟩, ⟨j, hj, l, hl, h2⟩⟩ := hn
      omega
    · intro n hn
      simp only [clipWritten, scissorWritten, h7, if_true] at hn
      obtain ⟨⟨i, hi, k, hk, h1⟩, ⟨j, hj, l, hl, h2⟩⟩ := hn
      omega
    · intro n hn
      simp only [ccWritten, scissorWritten, h7, if_true] at hn
      obtain ⟨⟨i, hi, k, hk, h1⟩, ⟨j, hj, l, hl, h2⟩⟩ := hn
      omega
  · rw [viewport_state_cmd_lt7 st gen count h7]
    dsimp only
    refine ⟨⟨by omega, by omega, by omega, by omega⟩,
      ?_, ?_, ?_, ?_, ?_, ?_, fun h => by omega, fun _ => ⟨rfl, by omega, by omega, by omega⟩⟩
    · intro n hn
      simp only [sfWritten, clipWritten, h7, if_false] at hn
      obtain ⟨⟨i, hi, k, hk, h1⟩, ⟨j, hj, l, hl, h2⟩⟩ := hn
      omega
    · intro n hn
      simp only [sfWritten, ccWritten, h7, if_false] at hn
      obtain ⟨⟨i, hi, k, hk, h1⟩, ⟨j, hj, l, hl, h2⟩⟩ := hn
      omega
    · intro n hn
      simp only [sfWritten, scissorWritten, h7, if_false] at hn
      obtain ⟨⟨i, hi, k, hk, h1⟩, ⟨j, hj, l, hl, h2⟩⟩ := hn
      omega
    · intro n hn
      simp only [clipWritten, ccWritten, h7, if_false] at hn
      obtain ⟨⟨i, hi, k, hk, h1⟩, ⟨j, hj, l, hl, h2⟩⟩ := hn
      omega
    · intro n hn
      simp only [clipWritten, scissorWritten, h7, if_false] at hn
      obtain ⟨⟨i, hi, k, hk, h1⟩, ⟨j, hj, l, hl, h2⟩⟩ := hn
      omega
    · intro n hn
      simp only [ccWritten, scissorWritten, h7, if_false] at hn
      obtain ⟨⟨i, hi, k, hk, h1⟩, ⟨j, hj, l, hl, h2⟩⟩ := hn
      omega

/-- Witness for the layout invariants theorem at generation 7, count 2. -/
theorem viewport_layout_invariants_witness :
    ((60 : ℕ) ≤ 70 ∧ (70 : ℕ) ≤ 75) ∧ (1 : ℕ) ≤ 2 ∧
    ((0 < (viewport_state_cmd stExample 70 2).cmd_clip_pos ∧
      (viewport_state_cmd stExample 70 2).cmd_clip_pos <
        (viewport_state_cmd stExample 70 2).cmd_cc_pos ∧
      (viewport_state_cmd stExample 70 2).cmd_cc_pos <
        (viewport_state_cmd stExample 70 2).cmd_scissor_rect_pos ∧
      (viewport_state_cmd stExample 70 2).cmd_scissor_rect_pos <
        (viewport_state_cmd stExample 70 2).cmd_len) ∧
    (∀ n, ¬ (sfWritten 70 2 n ∧ clipWritten 70 2 n)) ∧
    (∀ n, ¬ (sfWritten 70 2 n ∧ ccWritten 70 2 n)) ∧
    (∀ n, ¬ (sfWritten 70 2 n ∧ scissorWritten 70 2 n)) ∧
    (∀ n, ¬ (clipWritten 70 2 n ∧ ccWritten 70 2 n)) ∧
    (∀ n, ¬ (clipWritten 70 2 n ∧ scissorWritten 70 2 n)) ∧
    (∀ n, ¬ (ccWritten 70 2 n ∧ scissorWritten 70 2 n)) ∧
    ((70 : ℕ) ≤ 70 →
      (viewport_state_cmd stExample 70 2).cmd_cc_pos = 16 * 2 ∧
      (viewport_state_cmd stExample 70 2).cmd_scissor_rect_pos =
        (viewport_state_cmd stExample 70 2).cmd_cc_pos + 2 * 2 ∧
      (viewport_state_cmd stExample 70 2).cmd_len =
        (viewport_state_cmd stExample 70 2).cmd_scissor_rect_pos + 2 * 2) ∧
    ((70 : ℕ) < 70 →
      (viewport_state_cmd stExample 70 2).cmd_clip_pos = 8 * 2 ∧
      (viewport_state_cmd stExample 70 2).cmd_cc_pos =
        (viewport_state_cmd stExample 70 2).cmd_clip_pos + 4 * 2 ∧
      (viewport_state_cmd stExample 70 2).cmd_scissor_rect_pos =
        (viewport_state_cmd stExample 70 2).cmd_cc_pos + 2 * 2 ∧
      (viewport_state_cmd stExample 70 2).cmd_len =
        (viewport_state_cmd stExample 70 2).cmd_scissor_rect_pos + 2 * 2)) :=
  ⟨⟨by decide, by decide⟩, by decide,
   viewport_layout_invariants 70 2 stExample ⟨by decide, by decide⟩ (by decide)⟩

/-- C10: each of the three stencil setters writes the front-face field iff
the front bit is set in the face mask and the back-face field iff the back
bit is set, never modifies the other two stencil fields of either face, and
a face mask of zero leaves the entire stencil state unchanged. -/
theorem stencil_setters_faces (st : intel_stencil_state) (faceMask v : ℕ) :
    ((vkCmdSetStencilCompareMask st faceMask v).front.stencil_compare_mask =
        (if faceMask &&& VK_STENCIL_FACE_FRONT_BIT ≠ 0 then v
          else st.front.stencil_compare_mask) ∧
      (vkCmdSetStencilCompareMask st faceMask v).back.stencil_compare_mask =
        (if faceMask &&& VK_STENCIL_FACE_BACK_BIT ≠ 0 then v
          else st.back.stencil_compare_mask) ∧
      (vkCmdSetStencilCompareMask st faceMask v).front.stencil_write_mask =
        st.front.stencil_write_mask ∧
      (vkCmdSetStencilCompareMask st faceMask v).front.stencil_reference =
        st.front.stencil_reference ∧
      (vkCmdSetStencilCompareMask st faceMask v).back.stencil_write_mask =
        st.back.stencil_write_mask ∧
      (vkCmdSetStencilCompareMask st faceMask v).back.stencil_reference =
        st.back.stencil_reference) ∧
    ((vkCmdSetStencilWriteMask st faceMask v).front.stencil_write_mask =
        (if faceMask &&& VK_STENCIL_FACE_FRONT_BIT ≠ 0 then v
          else st.front.stencil_write_mask) ∧
      (vkCmdSetStencilWriteMask st faceMask v).back.stencil_write_mask =
        (if faceMask &&& VK_STENCIL_FACE_BACK_BIT ≠ 0 then v
          else st.back.stencil_write_mask) ∧
      (vkCmdSetStencilWriteMask st faceMask v).front.stencil_compare_mask =
        st.front.stencil_compare_mask ∧
      (vkCmdSetStencilWriteMask st faceMask v).front.stencil_reference =
        st.front.stencil_reference ∧
      (vkCmdSetStencilWriteMask st faceMask v).back.stencil_compare_mask =
        st.back.stencil_compare_mask ∧
      (vkCmdSetStencilWriteMask st faceMask v).back.stencil_reference =
        st.back.stencil_reference) ∧
    ((vkCmdSetStencilReference st faceMask v).front.stencil_reference =
        (if faceMask &&& VK_STENCIL_FACE_FRONT_BIT ≠ 0 then v
          else st.front.stencil_reference) ∧
      (vkCmdSetStencilReference st faceMask v).back.stencil_reference =
        (if faceMask &&& VK_STENCIL_FACE_BACK_BIT ≠ 0 then v
          else st.back.stencil_reference) ∧
      (vkCmdSetStencilReference st faceMask v).front.stencil_compare_mask =
        st.front.stencil_compare_mask ∧
      (vkCmdSetStencilReference st faceMask v).front.stencil_write_mask =
        st.front.stencil_write_mask ∧
      (vkCmdSetStencilReference st faceMask v).back.stencil_compare_mask =
        st.back.stencil_compare_mask ∧
      (vkCmdSetStencilReference st faceMask v).back.stencil_write_mask =
        st.back.stencil_write_mask) ∧
    (vkCmdSetStencilCompareMask st 0 v = st ∧
      vkCmdSetStencilWriteMask st 0 v = st ∧
      vkCmdSetStencilReference st 0 v = st) := by
  unfold vkCmdSetStencilCompareMask vkCmdSetStencilWriteMask vkCmdSetStencilReference
  refine ⟨⟨?_, ?_, ?_, ?_, ?_, ?_⟩, ⟨?_, ?_, ?_, ?_, ?_, ?_⟩,
    ⟨?_, ?_, ?_, ?_, ?_, ?_⟩, ?_, ?_, ?_⟩ <;>
    split_ifs <;> simp_all [VK_STENCIL_FACE_FRONT_BIT, VK_STENCIL_FACE_BACK_BIT]
